import Mathlib

/-!
Shallow embedding of the polling-and-narration loop of the
cognitive-ai-frontend repository.

The repository ships two source files containing three React components:

* LiveCognitiveCamera (LiveCognitiveCamera.jsx, first component): polls an
  endpoint every 3 s, stores the decoded Thought, and narrates
  pipeline.interpretation.summary when it is truthy and differs from the
  last spoken text.
* CinematicCognitiveUI (same file, second component): polls every 3 s,
  keeps a bounded newest-first history of received bodies, and narrates the
  phrase computed by humanizeThought.
* CognitiveAISystem (CognitiveAISystem.jsx): polls every 2.5 s and narrates
  the summary with a tone-dependent rate and pitch; its narration guard
  additionally requires the voice flag.

Modelling decisions:

* useState updates are modelled by explicit state threading: a timer tick
  is a function from the component state and the outcome of the fetch to
  the next component state.  The effect re-subscribes on its dependencies,
  so each tick observes the state left by the previous tick.
* Calls into the host speech engine (speechSynthesis.cancel and
  speechSynthesis.speak) are recorded in an append-only trace kept in the
  state.
* JavaScript exception semantics inside the try block are modelled by
  cutting the tick short at the point where the corresponding field access
  would throw, while keeping the state updates already performed before
  that point.
* The onClick handler of the Enable Voice button calls setVoiceEnabled and
  then the speak closure of the current render; that closure still reads
  the pre-click value of the voice flag, which is how React function
  components behave (state updates are only visible after a re-render).
-/

/-- One entry of pipeline.perception.objects; the code only ever reads its
label field. -/
structure DetectedObject where
  label : String
deriving DecidableEq

/-- The pipeline.perception object. -/
structure Perception where
  objects : List DetectedObject
deriving DecidableEq

/-- The pipeline.interpretation object. -/
structure Interpretation where
  summary : String
deriving DecidableEq

/-- The pipeline.uncertainty object; overall is a JSON number in [0,1],
represented as a rational (it is only displayed, never computed with). -/
structure Uncertainty where
  overall : Rat
deriving DecidableEq

/-- The pipeline.risk object. -/
structure Risk where
  level : String
deriving DecidableEq

/-- The pipeline object of a Thought. -/
structure Pipeline where
  perception : Perception
  interpretation : Interpretation
  uncertainty : Uncertainty
  risk : Risk
deriving DecidableEq

/-- The optional meta object; CognitiveAISystem reads meta?.tone. -/
structure MetaInfo where
  tone : Option String
deriving DecidableEq

/-- A well-formed Thought as consumed by the components. -/
structure Thought where
  pipeline : Pipeline
  meta : Option MetaInfo
deriving DecidableEq

/-- A JSON-decoded response body.  wellFormed carries a body with the full
pipeline chain; noPipeline models a JSON value without it, on which any
field access below data.pipeline (for example
data.pipeline.interpretation.summary) throws a TypeError. -/
inductive Body
  | wellFormed (t : Thought)
  | noPipeline
deriving DecidableEq

/-- Outcome of one fetch plus res.json() round trip.  netError: the fetch
promise rejects (network failure).  httpResponse ok json: the server
answered and ok is the HTTP success flag; json = none models a body that
is not JSON, in which case res.json() rejects.  None of the three
components ever reads the status flag. -/
inductive FetchResult
  | netError
  | httpResponse (ok : Bool) (json : Option Body)
deriving DecidableEq

/-- A SpeechSynthesisUtterance as configured by the components: its text and
the rate and pitch assigned to it.  Voice and volume selection are not
modelled (voice choice depends on the host voice list). -/
structure Utterance where
  text : String
  rate : Rat
  pitch : Rat
deriving DecidableEq

/-- One call into the host speech engine, in program order. -/
inductive SpeechCall
  | cancel
  | speakUtter (u : Utterance)
deriving DecidableEq

/-- Number of speechSynthesis.speak calls in a trace. -/
def utterCount (l : List SpeechCall) : Nat :=
  l.countP fun c =>
    match c with
    | .speakUtter _ => true
    | .cancel => false

/-- Helper for speakPreceded: the flag records whether the call immediately
before the current position was a cancel. -/
def speakPrecededFrom : Bool → List SpeechCall → Bool
  | _, [] => true
  | prevCancel, .speakUtter _ :: rest => prevCancel && speakPrecededFrom false rest
  | _, .cancel :: rest => speakPrecededFrom true rest

/-- Every speak call in the trace is immediately preceded by a cancel call. -/
def speakPreceded (l : List SpeechCall) : Bool :=
  speakPrecededFrom false l

/-- An action performed by an effect cleanup function on unmount. -/
inductive CleanupAction
  | clearTimer
  | cancelSpeech
deriving DecidableEq

namespace LiveCamera

/-- State held by the LiveCognitiveCamera component, plus the speech trace. -/
structure State where
  thought : Option Body
  voiceEnabled : Bool
  lastSpoken : String
  events : List SpeechCall
deriving DecidableEq

/-- Initial state: useState(null), useState(false), useState("") and an empty
speech trace. -/
def init : State := ⟨none, false, "", []⟩

/-- The speak helper of LiveCognitiveCamera: a no-op when voiceEnabled is
false, otherwise speechSynthesis.cancel() followed by speaking an utterance
with rate 1 and pitch 1. -/
def speak (voiceEnabled : Bool) (events : List SpeechCall) (text : String) :
    List SpeechCall :=
  if voiceEnabled then events ++ [.cancel, .speakUtter ⟨text, 1, 1⟩]
  else events

/-- One 3-second timer tick of LiveCognitiveCamera.  A rejected fetch or a
non-JSON body throws before setThought, leaving the state unchanged.  A
decoded body is stored via setThought; if it lacks the pipeline chain the
summary access then throws (caught by the empty catch), otherwise the
narration guard compares the summary with lastSpoken. -/
def tick (s : State) (r : FetchResult) : State :=
  match r with
  | .netError => s
  | .httpResponse _ none => s
  | .httpResponse _ (some body) =>
    let s1 : State := { s with thought := some body }
    match body with
    | .noPipeline => s1
    | .wellFormed t =>
      let summary := t.pipeline.interpretation.summary
      if summary ≠ "" ∧ summary ≠ s1.lastSpoken then
        { s1 with
          events := speak s1.voiceEnabled s1.events summary,
          lastSpoken := summary }
      else s1

/-- The Enable Voice onClick handler: setVoiceEnabled(true) then
speak("Voice system activated").  The speak closure reads the voice flag of
the current render, that is the pre-click value. -/
def enableVoiceClick (s : State) : State :=
  { s with
    voiceEnabled := true,
    events := speak s.voiceEnabled s.events "Voice system activated" }

/-- An event processed by the component: a timer tick or a click on the
Enable Voice button. -/
inductive Event
  | tick (r : FetchResult)
  | click

/-- Dispatch one event. -/
def step (s : State) : Event → State
  | .tick r => tick s r
  | .click => enableVoiceClick s

/-- Process a list of events from a given state. -/
def runFrom (s : State) (evs : List Event) : State :=
  evs.foldl step s

/-- Process a list of events from the initial state. -/
def run (evs : List Event) : State :=
  runFrom init evs

/-- The effect cleanup of LiveCognitiveCamera (line 40): it only clears the
polling interval. -/
def cleanup : List CleanupAction := [.clearTimer]

end LiveCamera

namespace Cinematic

/-- State held by the CinematicCognitiveUI component, plus the speech trace. -/
structure State where
  thought : Option Body
  loading : Bool
  lastSpoken : String
  voiceEnabled : Bool
  history : List Body
  events : List SpeechCall
deriving DecidableEq

/-- Initial state: useState(null), useState(true), useState(""),
useState(false), useState([]) and an empty speech trace. -/
def init : State := ⟨none, true, "", false, [], []⟩

/-- The speak callback of CinematicCognitiveUI: a no-op when voiceEnabled is
false, otherwise cancel followed by speaking an utterance with rate 0.92 and
pitch 1.05. -/
def speak (voiceEnabled : Bool) (events : List SpeechCall) (text : String) :
    List SpeechCall :=
  if voiceEnabled then
    events ++ [.cancel, .speakUtter ⟨text, 92 / 100, 105 / 100⟩]
  else events

/-- humanizeThought: maps a Thought to one of five canned phrases.  The three
person branches return early in the source; when none of the three risk
levels matches, control falls through to the laptop check and then to the
default phrase, captured here by the shared afterPerson continuation. -/
def humanizeThought (t : Thought) : String :=
  let objects := t.pipeline.perception.objects
  let risk := t.pipeline.risk.level
  let labels := objects.map DetectedObject.label
  let afterPerson :=
    if labels.contains "laptop" then "A laptop is in front of you."
    else "I\x27m observing the surroundings."
  if labels.contains "person" then
    if risk = "LOW" then "I can see someone nearby. Everything looks safe."
    else if risk = "MEDIUM" then "Someone is close. Stay aware."
    else if risk = "HIGH" then "Warning. Someone is very close."
    else afterPerson
  else afterPerson

/-- One 3-second timer tick of CinematicCognitiveUI.  A rejected fetch or a
non-JSON body throws before any state update.  A decoded body is stored via
setThought, setLoading(false) and the history push-front with truncation to
the 6 retained entries; only then is humanizeThought applied, which throws
on a body without the pipeline chain (caught by the empty catch, keeping
the updates already made). -/
def tick (s : State) (r : FetchResult) : State :=
  match r with
  | .netError => s
  | .httpResponse _ none => s
  | .httpResponse _ (some body) =>
    let s1 : State :=
      { s with
        thought := some body,
        loading := false,
        history := body :: s.history.take 6 }
    match body with
    | .noPipeline => s1
    | .wellFormed t =>
      let humanSpeech := humanizeThought t
      if humanSpeech ≠ "" ∧ humanSpeech ≠ s1.lastSpoken then
        { s1 with
          events := speak s1.voiceEnabled s1.events humanSpeech,
          lastSpoken := humanSpeech }
      else s1

/-- The Enable Voice onClick handler: setVoiceEnabled(true) then
speak("Cognitive voice online") with the pre-click flag value. -/
def enableVoiceClick (s : State) : State :=
  { s with
    voiceEnabled := true,
    events := speak s.voiceEnabled s.events "Cognitive voice online" }

/-- An event processed by the component. -/
inductive Event
  | tick (r : FetchResult)
  | click

/-- Dispatch one event. -/
def step (s : State) : Event → State
  | .tick r => tick s r
  | .click => enableVoiceClick s

/-- Process a list of events from a given state. -/
def runFrom (s : State) (evs : List Event) : State :=
  evs.foldl step s

/-- Process a list of events from the initial state. -/
def run (evs : List Event) : State :=
  runFrom init evs

/-- The effect cleanup of CinematicCognitiveUI (line 201): it only clears the
polling interval. -/
def cleanup : List CleanupAction := [.clearTimer]

end Cinematic

namespace CogSystem

/-- Narration-related state held by the CognitiveAISystem component (its
documentation-browsing state is pure display and not modelled), plus the
speech trace. -/
structure State where
  thought : Option Body
  lastSpoken : String
  voiceEnabled : Bool
  events : List SpeechCall
deriving DecidableEq

/-- Initial state: useState(null), useState(""), useState(false) and an empty
speech trace. -/
def init : State := ⟨none, "", false, []⟩

/-- speakWithTone: a no-op when voiceEnabled is false, otherwise cancel
followed by speaking an utterance whose rate and pitch depend on the tone:
urgent gives 1.1 and 0.8, curious gives 1.0 and 1.2, anything else gives
0.95 and 1.05. -/
def speakWithTone (voiceEnabled : Bool) (events : List SpeechCall)
    (text : String) (tone : String) : List SpeechCall :=
  if voiceEnabled then
    let u : Utterance :=
      if tone = "urgent" then ⟨text, 11 / 10, 8 / 10⟩
      else if tone = "curious" then ⟨text, 1, 12 / 10⟩
      else ⟨text, 95 / 100, 105 / 100⟩
    events ++ [.cancel, .speakUtter u]
  else events

/-- The tone read by the tick: data.meta?.tone with fallback "calm"; a
missing meta object, a missing tone field, or a falsy (empty) tone string
all yield "calm". -/
def toneOf (t : Thought) : String :=
  match t.meta with
  | none => "calm"
  | some m =>
    match m.tone with
    | none => "calm"
    | some tn => if tn = "" then "calm" else tn

/-- One 2.5-second timer tick of CognitiveAISystem.  Identical to the
LiveCognitiveCamera tick except that the narration guard additionally
requires voiceEnabled, so lastSpoken is not updated while the voice is
disabled, and narration carries the tone-dependent settings. -/
def tick (s : State) (r : FetchResult) : State :=
  match r with
  | .netError => s
  | .httpResponse _ none => s
  | .httpResponse _ (some body) =>
    let s1 : State := { s with thought := some body }
    match body with
    | .noPipeline => s1
    | .wellFormed t =>
      let summary := t.pipeline.interpretation.summary
      let tone := toneOf t
      if summary ≠ "" ∧ summary ≠ s1.lastSpoken ∧ s1.voiceEnabled = true then
        { s1 with
          events := speakWithTone s1.voiceEnabled s1.events summary tone,
          lastSpoken := summary }
      else s1

/-- The Enable Voice onClick handler: setVoiceEnabled(true) then
speakWithTone("Voice system activated", "curious") with the pre-click flag
value. -/
def enableVoiceClick (s : State) : State :=
  { s with
    voiceEnabled := true,
    events := speakWithTone s.voiceEnabled s.events "Voice system activated" "curious" }

/-- An event processed by the component. -/
inductive Event
  | tick (r : FetchResult)
  | click

/-- Dispatch one event. -/
def step (s : State) : Event → State
  | .tick r => tick s r
  | .click => enableVoiceClick s

/-- Process a list of events from a given state. -/
def runFrom (s : State) (evs : List Event) : State :=
  evs.foldl step s

/-- Process a list of events from the initial state. -/
def run (evs : List Event) : State :=
  runFrom init evs

/-- The effect cleanup of CognitiveAISystem (lines 508 to 511): it clears the
polling interval and then calls speechSynthesis.cancel(). -/
def cleanup : List CleanupAction := [.clearTimer, .cancelSpeech]

end CogSystem

/-- Test fixture: a well-formed Thought whose summary is the given string and
whose remaining fields are fixed innocuous values. -/
def thoughtWithSummary (s : String) : Thought :=
  ⟨⟨⟨[]⟩, ⟨s⟩, ⟨0⟩, ⟨"SAFE"⟩⟩, none⟩

/-- Test fixture: a well-formed Thought with the given perception labels and
risk level. -/
def thoughtWithLabels (labels : List String) (risk : String) : Thought :=
  ⟨⟨⟨labels.map DetectedObject.mk⟩, ⟨"x"⟩, ⟨0⟩, ⟨risk⟩⟩, none⟩

/-- A successful OK fetch whose body is a well-formed Thought with the given
summary. -/
def okFetch (s : String) : FetchResult :=
  .httpResponse true (some (.wellFormed (thoughtWithSummary s)))

/-- Number of narration calls the polling loop performs on a list of summaries
starting from a given last-spoken text: one for every summary that is
nonempty and differs from the text last spoken before it (the last-spoken
text is updated whenever a call fires). -/
def narrationCount : String → List String → Nat
  | _, [] => 0
  | last, s :: rest =>
    if s ≠ "" ∧ s ≠ last then narrationCount s rest + 1
    else narrationCount last rest

/-- Follows the words of the claim: a narration call fires whenever the
summary differs from the last spoken text, compared by exact string
equality, with no nonemptiness requirement. -/
def claimedNarrationCount : String → List String → Nat
  | _, [] => 0
  | last, s :: rest =>
    if s ≠ last then claimedNarrationCount s rest + 1
    else claimedNarrationCount last rest

/-- The five phrases humanizeThought can return. -/
def fivePhrases : Finset String :=
  {"I can see someone nearby. Everything looks safe.",
   "Someone is close. Stay aware.",
   "Warning. Someone is very close.",
   "A laptop is in front of you.",
   "I\x27m observing the surroundings."}

/-- A history buffer already at the 7-entry capacity. -/
def sevenBodies : List Body :=
  List.replicate 7 Body.noPipeline

/-- Counting speak calls distributes over trace concatenation. -/
theorem utterCount_append (l1 l2 : List SpeechCall) :
    utterCount (l1 ++ l2) = utterCount l1 + utterCount l2 := by
  simp [utterCount, List.countP_append]

/-- The LiveCognitiveCamera speak helper adds exactly one speak call when the
voice is enabled. -/
theorem utterCount_liveCamera_speak (evs : List SpeechCall) (t : String) :
    utterCount (LiveCamera.speak true evs t) = utterCount evs + 1 := by
  simp [LiveCamera.speak, utterCount, List.countP_append, List.countP_cons]

/-- speakWithTone adds exactly one speak call when the voice is enabled. -/
theorem utterCount_cogSystem_speakWithTone (evs : List SpeechCall)
    (t tone : String) :
    utterCount (CogSystem.speakWithTone true evs t tone) = utterCount evs + 1 := by
  simp [CogSystem.speakWithTone, utterCount, List.countP_append, List.countP_cons]

/-- Appending a cancel call followed by a speak call preserves the
cancel-precedes-speak trace property, for any preceding-call flag. -/
theorem speakPrecededFrom_append_pair (l : List SpeechCall) (u : Utterance) :
    ∀ b : Bool, speakPrecededFrom b l = true →
      speakPrecededFrom b (l ++ [.cancel, .speakUtter u]) = true := by
  induction l with
  | nil => intro b _; rfl
  | cons c rest ih =>
    intro b hb
    cases c with
    | cancel =>
      simp only [List.cons_append, speakPrecededFrom] at hb ⊢
      exact ih true hb
    | speakUtter v =>
      simp only [List.cons_append, speakPrecededFrom, Bool.and_eq_true] at hb ⊢
      exact ⟨hb.1, ih false hb.2⟩

/-- The LiveCognitiveCamera speak helper preserves the cancel-precedes-speak
property of the trace. -/
theorem liveCamera_speak_preceded (flag : Bool) (evs : List SpeechCall)
    (t : String) (h : speakPreceded evs = true) :
    speakPreceded (LiveCamera.speak flag evs t) = true := by
  unfold LiveCamera.speak
  split
  · exact speakPrecededFrom_append_pair evs _ false h
  · exact h

/-- The CinematicCognitiveUI speak callback preserves the
cancel-precedes-speak property of the trace. -/
theorem cinematic_speak_preceded (flag : Bool) (evs : List SpeechCall)
    (t : String) (h : speakPreceded evs = true) :
    speakPreceded (Cinematic.speak flag evs t) = true := by
  unfold Cinematic.speak
  split
  · exact speakPrecededFrom_append_pair evs _ false h
  · exact h

/-- speakWithTone preserves the cancel-precedes-speak property of the trace. -/
theorem cogSystem_speakWithTone_preceded (flag : Bool) (evs : List SpeechCall)
    (t tone : String) (h : speakPreceded evs = true) :
    speakPreceded (CogSystem.speakWithTone flag evs t tone) = true := by
  unfold CogSystem.speakWithTone
  split
  · exact speakPrecededFrom_append_pair evs _ false h
  · exact h

/-- Each LiveCognitiveCamera event preserves the cancel-precedes-speak
property. -/
theorem liveCamera_step_preceded (s : LiveCamera.State) (e : LiveCamera.Event)
    (h : speakPreceded s.events = true) :
    speakPreceded (LiveCamera.step s e).events = true := by
  cases e with
  | click => exact liveCamera_speak_preceded _ _ _ h
  | tick r =>
    cases r with
    | netError => exact h
    | httpResponse ok json =>
      cases json with
      | none => exact h
      | some body =>
        cases body with
        | noPipeline => exact h
        | wellFormed t =>
          simp only [LiveCamera.step, LiveCamera.tick]
          split
          · exact liveCamera_speak_preceded _ _ _ h
          · exact h

/-- Each CinematicCognitiveUI event preserves the cancel-precedes-speak
property. -/
theorem cinematic_step_preceded (s : Cinematic.State) (e : Cinematic.Event)
    (h : speakPreceded s.events = true) :
    speakPreceded (Cinematic.step s e).events = true := by
  cases e with
  | click => exact cinematic_speak_preceded _ _ _ h
  | tick r =>
    cases r with
    | netError => exact h
    | httpResponse ok json =>
      cases json with
      | none => exact h
      | some body =>
        cases body with
        | noPipeline => exact h
        | wellFormed t =>
          simp only [Cinematic.step, Cinematic.tick]
          split
          · exact cinematic_speak_preceded _ _ _ h
          · exact h

/-- Each CognitiveAISystem event preserves the cancel-precedes-speak
property. -/
theorem cogSystem_step_preceded (s : CogSystem.State) (e : CogSystem.Event)
    (h : speakPreceded s.events = true) :
    speakPreceded (CogSystem.step s e).events = true := by
  cases e with
  | click => exact cogSystem_speakWithTone_preceded _ _ _ _ h
  | tick r =>
    cases r with
    | netError => exact h
    | httpResponse ok json =>
      cases json with
      | none => exact h
      | some body =>
        cases body with
        | noPipeline => exact h
        | wellFormed t =>
          simp only [CogSystem.step, CogSystem.tick]
          split
          · exact cogSystem_speakWithTone_preceded _ _ _ _ h
          · exact h

/-- Processing any event list preserves the cancel-precedes-speak property of
the LiveCognitiveCamera trace. -/
theorem liveCamera_runFrom_preceded (evs : List LiveCamera.Event) :
    ∀ s : LiveCamera.State, speakPreceded s.events = true →
      speakPreceded (LiveCamera.runFrom s evs).events = true := by
  induction evs with
  | nil => intro s h; exact h
  | cons e rest ih => intro s h; exact ih _ (liveCamera_step_preceded s e h)

/-- Processing any event list preserves the cancel-precedes-speak property of
the CinematicCognitiveUI trace. -/
theorem cinematic_runFrom_preceded (evs : List Cinematic.Event) :
    ∀ s : Cinematic.State, speakPreceded s.events = true →
      speakPreceded (Cinematic.runFrom s evs).events = true := by
  induction evs with
  | nil => intro s h; exact h
  | cons e rest ih => intro s h; exact ih _ (cinematic_step_preceded s e h)

/-- Processing any event list preserves the cancel-precedes-speak property of
the CognitiveAISystem trace. -/
theorem cogSystem_runFrom_preceded (evs : List CogSystem.Event) :
    ∀ s : CogSystem.State, speakPreceded s.events = true →
      speakPreceded (CogSystem.runFrom s evs).events = true := by
  induction evs with
  | nil => intro s h; exact h
  | cons e rest ih => intro s h; exact ih _ (cogSystem_step_preceded s e h)

/-- With the voice disabled, a LiveCognitiveCamera tick keeps the flag false
and issues no speech-engine calls. -/
theorem liveCamera_tick_disabled (s : LiveCamera.State) (r : FetchResult)
    (h : s.voiceEnabled = false) :
    (LiveCamera.tick s r).voiceEnabled = false ∧
      (LiveCamera.tick s r).events = s.events := by
  cases r with
  | netError => exact ⟨h, rfl⟩
  | httpResponse ok json =>
    cases json with
    | none => exact ⟨h, rfl⟩
    | some body =>
      cases body with
      | noPipeline => exact ⟨h, rfl⟩
      | wellFormed t =>
        simp only [LiveCamera.tick]
        split
        · exact ⟨h, by simp [LiveCamera.speak, h]⟩
        · exact ⟨h, rfl⟩

/-- With the voice disabled, a CinematicCognitiveUI tick keeps the flag false
and issues no speech-engine calls. -/
theorem cinematic_tick_disabled (s : Cinematic.State) (r : FetchResult)
    (h : s.voiceEnabled = false) :
    (Cinematic.tick s r).voiceEnabled = false ∧
      (Cinematic.tick s r).events = s.events := by
  cases r with
  | netError => exact ⟨h, rfl⟩
  | httpResponse ok json =>
    cases json with
    | none => exact ⟨h, rfl⟩
    | some body =>
      cases body with
      | noPipeline => exact ⟨h, rfl⟩
      | wellFormed t =>
        simp only [Cinematic.tick]
        split
        · exact ⟨h, by simp [Cinematic.speak, h]⟩
        · exact ⟨h, rfl⟩

/-- With the voice disabled, a CognitiveAISystem tick keeps the flag false and
issues no speech-engine calls. -/
theorem cogSystem_tick_disabled (s : CogSystem.State) (r : FetchResult)
    (h : s.voiceEnabled = false) :
    (CogSystem.tick s r).voiceEnabled = false ∧
      (CogSystem.tick s r).events = s.events := by
  cases r with
  | netError => exact ⟨h, rfl⟩
  | httpResponse ok json =>
    cases json with
    | none => exact ⟨h, rfl⟩
    | some body =>
      cases body with
      | noPipeline => exact ⟨h, rfl⟩
      | wellFormed t =>
        simp only [CogSystem.tick]
        split
        · exact ⟨h, by simp [CogSystem.speakWithTone, h]⟩
        · exact ⟨h, rfl⟩

/-- A tick-only run of LiveCognitiveCamera that starts with the voice disabled
keeps the flag false and its trace unchanged. -/
theorem liveCamera_ticks_disabled (rs : List FetchResult) :
    ∀ s : LiveCamera.State, s.voiceEnabled = false →
      (LiveCamera.runFrom s (rs.map LiveCamera.Event.tick)).voiceEnabled = false ∧
      (LiveCamera.runFrom s (rs.map LiveCamera.Event.tick)).events = s.events := by
  induction rs with
  | nil => intro s h; exact ⟨h, rfl⟩
  | cons r rest ih =>
    intro s h
    obtain ⟨h1, h2⟩ := liveCamera_tick_disabled s r h
    obtain ⟨h3, h4⟩ := ih (LiveCamera.tick s r) h1
    exact ⟨h3, h4.trans h2⟩

/-- A tick-only run of CinematicCognitiveUI that starts with the voice
disabled keeps the flag false and its trace unchanged. -/
theorem cinematic_ticks_disabled (rs : List FetchResult) :
    ∀ s : Cinematic.State, s.voiceEnabled = false →
      (Cinematic.runFrom s (rs.map Cinematic.Event.tick)).voiceEnabled = false ∧
      (Cinematic.runFrom s (rs.map Cinematic.Event.tick)).events = s.events := by
  induction rs with
  | nil => intro s h; exact ⟨h, rfl⟩
  | cons r rest ih =>
    intro s h
    obtain ⟨h1, h2⟩ := cinematic_tick_disabled s r h
    obtain ⟨h3, h4⟩ := ih (Cinematic.tick s r) h1
    exact ⟨h3, h4.trans h2⟩

/-- A tick-only run of CognitiveAISystem that starts with the voice disabled
keeps the flag false and its trace unchanged. -/
theorem cogSystem_ticks_disabled (rs : List FetchResult) :
    ∀ s : CogSystem.State, s.voiceEnabled = false →
      (CogSystem.runFrom s (rs.map CogSystem.Event.tick)).voiceEnabled = false ∧
      (CogSystem.runFrom s (rs.map CogSystem.Event.tick)).events = s.events := by
  induction rs with
  | nil => intro s h; exact ⟨h, rfl⟩
  | cons r rest ih =>
    intro s h
    obtain ⟨h1, h2⟩ := cogSystem_tick_disabled s r h
    obtain ⟨h3, h4⟩ := ih (CogSystem.tick s r) h1
    exact ⟨h3, h4.trans h2⟩

/-- Any CinematicCognitiveUI event keeps the history buffer within the
7-entry bound. -/
theorem cinematic_step_history_le (s : Cinematic.State) (e : Cinematic.Event)
    (h : s.history.length ≤ 7) : (Cinematic.step s e).history.length ≤ 7 := by
  cases e with
  | click => exact h
  | tick r =>
    cases r with
    | netError => exact h
    | httpResponse ok json =>
      cases json with
      | none => exact h
      | some body =>
        have hb : ∀ s1 : Cinematic.State,
            (Cinematic.tick s1 (.httpResponse ok (some body))).history
              = body :: s1.history.take 6 := by
          intro s1
          cases body with
          | noPipeline => rfl
          | wellFormed t =>
            simp only [Cinematic.tick]
            split <;> rfl
        simp only [Cinematic.step, hb, List.length_cons, List.length_take]
        omega

/-- Processing any event list from a state within the 7-entry history bound
stays within the bound. -/
theorem cinematic_runFrom_history_le (evs : List Cinematic.Event) :
    ∀ s : Cinematic.State, s.history.length ≤ 7 →
      (Cinematic.runFrom s evs).history.length ≤ 7 := by
  induction evs with
  | nil => intro s h; exact h
  | cons e rest ih => intro s h; exact ih _ (cinematic_step_history_le s e h)

/-- Evaluation of a LiveCognitiveCamera tick on a successful fetch carrying a
well-formed Thought with the given summary. -/
theorem liveCamera_tick_okFetch (th : Option Body) (ve : Bool) (ls : String)
    (evs : List SpeechCall) (x : String) :
    LiveCamera.tick ⟨th, ve, ls, evs⟩ (okFetch x) =
      if x ≠ "" ∧ x ≠ ls then
        ⟨some (.wellFormed (thoughtWithSummary x)), ve, x,
          LiveCamera.speak ve evs x⟩
      else ⟨some (.wellFormed (thoughtWithSummary x)), ve, ls, evs⟩ := by
  simp only [LiveCamera.tick, okFetch, thoughtWithSummary]

/-- Evaluation of a CognitiveAISystem tick on a successful fetch carrying a
well-formed Thought with the given summary, with the voice enabled. -/
theorem cogSystem_tick_okFetch (th : Option Body) (ls : String)
    (evs : List SpeechCall) (x : String) :
    CogSystem.tick ⟨th, ls, true, evs⟩ (okFetch x) =
      if x ≠ "" ∧ x ≠ ls then
        ⟨some (.wellFormed (thoughtWithSummary x)), x, true,
          CogSystem.speakWithTone true evs x "calm"⟩
      else ⟨some (.wellFormed (thoughtWithSummary x)), ls, true, evs⟩ := by
  simp only [CogSystem.tick, okFetch, thoughtWithSummary, CogSystem.toneOf]
  by_cases hx : x ≠ "" ∧ x ≠ ls
  · rw [if_pos ⟨hx.1, hx.2, trivial⟩]
    rw [if_pos hx]
  · rw [if_neg fun hc => hx ⟨hc.1, hc.2.1⟩]
    rw [if_neg hx]

/-- With the voice enabled throughout, the number of speak calls a tick-only
LiveCognitiveCamera run adds equals narrationCount of the summaries. -/
theorem liveCamera_run_count (sums : List String) :
    ∀ (th : Option Body) (ls : String) (evs : List SpeechCall),
      utterCount ((LiveCamera.runFrom ⟨th, true, ls, evs⟩
          (sums.map fun x => LiveCamera.Event.tick (okFetch x))).events)
        = utterCount evs + narrationCount ls sums := by
  induction sums with
  | nil => intro th ls evs; simp [LiveCamera.runFrom, narrationCount]
  | cons x rest ih =>
    intro th ls evs
    have hstep : LiveCamera.runFrom ⟨th, true, ls, evs⟩
        (((x :: rest).map fun y => LiveCamera.Event.tick (okFetch y)))
        = LiveCamera.runFrom (LiveCamera.tick ⟨th, true, ls, evs⟩ (okFetch x))
            (rest.map fun y => LiveCamera.Event.tick (okFetch y)) := rfl
    rw [hstep, liveCamera_tick_okFetch]
    by_cases hx : x ≠ "" ∧ x ≠ ls
    · rw [if_pos hx, ih, utterCount_liveCamera_speak]
      rw [narrationCount, if_pos hx]
      omega
    · rw [if_neg hx, ih, narrationCount, if_neg hx]

/-- With the voice enabled throughout, the number of speak calls a tick-only
CognitiveAISystem run adds equals narrationCount of the summaries. -/
theorem cogSystem_run_count (sums : List String) :
    ∀ (th : Option Body) (ls : String) (evs : List SpeechCall),
      utterCount ((CogSystem.runFrom ⟨th, ls, true, evs⟩
          (sums.map fun x => CogSystem.Event.tick (okFetch x))).events)
        = utterCount evs + narrationCount ls sums := by
  induction sums with
  | nil => intro th ls evs; simp [CogSystem.runFrom, narrationCount]
  | cons x rest ih =>
    intro th ls evs
    have hstep : CogSystem.runFrom ⟨th, ls, true, evs⟩
        (((x :: rest).map fun y => CogSystem.Event.tick (okFetch y)))
        = CogSystem.runFrom (CogSystem.tick ⟨th, ls, true, evs⟩ (okFetch x))
            (rest.map fun y => CogSystem.Event.tick (okFetch y)) := rfl
    rw [hstep, cogSystem_tick_okFetch]
    by_cases hx : x ≠ "" ∧ x ≠ ls
    · rw [if_pos hx, ih, utterCount_cogSystem_speakWithTone]
      rw [narrationCount, if_pos hx]
      omega
    · rw [if_neg hx, ih, narrationCount, if_neg hx]

/-- Every humanizeThought result is one of the five phrases. -/
theorem humanizeThought_mem_fivePhrases (t : Thought) :
    Cinematic.humanizeThought t ∈ fivePhrases := by
  unfold Cinematic.humanizeThought
  dsimp only
  split_ifs <;> simp [fivePhrases]

/-- A tick of CinematicCognitiveUI whose fetch and JSON decode succeed
prepends the body to the history and keeps at most the 6 previous entries,
whatever the body and whatever the HTTP status. -/
theorem cinematic_tick_history_prepend (s : Cinematic.State) (k : Bool)
    (b : Body) :
    (Cinematic.tick s (.httpResponse k (some b))).history
      = b :: s.history.take 6 := by
  cases b with
  | noPipeline => rfl
  | wellFormed t =>
    simp only [Cinematic.tick]
    split <;> rfl

/-- C1, counterexample.  The claim says a narration call is issued exactly
when the summary differs from the last spoken text, so for the summaries
"A" then "" (the second differing from the first) it predicts 2 calls; the
code also requires the summary to be truthy, so only 1 call occurs. -/
theorem C1_counterexample :
    utterCount ((LiveCamera.runFrom ⟨none, true, "", []⟩
        (["A", ""].map fun x => LiveCamera.Event.tick (okFetch x))).events) = 1
    ∧ claimedNarrationCount "" ["A", ""] = 2
    ∧ utterCount ((LiveCamera.runFrom ⟨none, true, "", []⟩
        (["A", ""].map fun x => LiveCamera.Event.tick (okFetch x))).events)
      ≠ claimedNarrationCount "" ["A", ""] := by
  refine ⟨by decide, by decide, by decide⟩

/-- C1, amended.  With narration enabled, a narration call is issued on a
successful poll exactly when the summary is nonempty and differs from the
last spoken text, so the narration call count equals the number of
nonempty-and-distinct-from-previous summaries; in particular, for summaries
"A", "A", "B" exactly 2 narration calls occur, for "A" then "B", each
preceded by a cancel.  This holds for the LiveCognitiveCamera loop and for
the CognitiveAISystem loop. -/
theorem C1_amended :
    (∀ (th : Option Body) (ls : String) (evs : List SpeechCall)
        (sums : List String),
      utterCount ((LiveCamera.runFrom ⟨th, true, ls, evs⟩
          (sums.map fun x => LiveCamera.Event.tick (okFetch x))).events)
        = utterCount evs + narrationCount ls sums)
    ∧ (∀ (th : Option Body) (ls : String) (evs : List SpeechCall)
        (sums : List String),
      utterCount ((CogSystem.runFrom ⟨th, ls, true, evs⟩
          (sums.map fun x => CogSystem.Event.tick (okFetch x))).events)
        = utterCount evs + narrationCount ls sums)
    ∧ (LiveCamera.runFrom ⟨none, true, "", []⟩
        (["A", "A", "B"].map fun x => LiveCamera.Event.tick (okFetch x))).events
      = [.cancel, .speakUtter ⟨"A", 1, 1⟩, .cancel, .speakUtter ⟨"B", 1, 1⟩] :=
  ⟨fun th ls evs sums => liveCamera_run_count sums th ls evs,
   fun th ls evs sums => cogSystem_run_count sums th ls evs,
   by decide⟩

/-- C2, counterexample.  A tick whose body is JSON but lacks the pipeline
fields is a failed tick in the sense of the claim, yet it changes both the
displayed Thought and the history buffer of CinematicCognitiveUI, because
setThought, setLoading and setHistory run before the field access throws. -/
theorem C2_counterexample :
    (Cinematic.tick Cinematic.init (.httpResponse true (some .noPipeline))).thought
      ≠ Cinematic.init.thought
    ∧ (Cinematic.tick Cinematic.init (.httpResponse true (some .noPipeline))).history
      ≠ Cinematic.init.history := by
  refine ⟨by decide, by decide⟩

/-- C2, amended.  A network error or a non-JSON body leaves the whole state
unchanged and triggers no narration.  The HTTP status is never inspected,
so a non-OK response is processed exactly like an OK one.  A JSON body
missing the pipeline fields still replaces the displayed Thought (and, in
CinematicCognitiveUI, clears the loading flag and is prepended to the
history) before the field access fails, but leaves the last-spoken text
unchanged and triggers no narration. -/
theorem C2_amended :
    (∀ s : Cinematic.State, Cinematic.tick s .netError = s)
    ∧ (∀ (s : Cinematic.State) (k : Bool),
        Cinematic.tick s (.httpResponse k none) = s)
    ∧ (∀ (s : Cinematic.State) (k : Bool),
        Cinematic.tick s (.httpResponse k (some .noPipeline))
          = { s with thought := some Body.noPipeline, loading := false,
                     history := Body.noPipeline :: s.history.take 6 })
    ∧ (∀ (s : Cinematic.State) (j k : Bool) (b : Option Body),
        Cinematic.tick s (.httpResponse j b) = Cinematic.tick s (.httpResponse k b))
    ∧ (∀ s : CogSystem.State, CogSystem.tick s .netError = s)
    ∧ (∀ (s : CogSystem.State) (k : Bool),
        CogSystem.tick s (.httpResponse k none) = s)
    ∧ (∀ (s : CogSystem.State) (k : Bool),
        CogSystem.tick s (.httpResponse k (some .noPipeline))
          = { s with thought := some Body.noPipeline })
    ∧ (∀ s : LiveCamera.State, LiveCamera.tick s .netError = s)
    ∧ (∀ (s : LiveCamera.State) (k : Bool),
        LiveCamera.tick s (.httpResponse k none) = s)
    ∧ (∀ (s : LiveCamera.State) (k : Bool),
        LiveCamera.tick s (.httpResponse k (some .noPipeline))
          = { s with thought := some Body.noPipeline }) := by
  refine ⟨fun s => rfl, fun s k => rfl, fun s k => rfl, ?_,
    fun s => rfl, fun s k => rfl, fun s k => rfl,
    fun s => rfl, fun s k => rfl, fun s k => rfl⟩
  intro s j k b
  cases b with
  | none => rfl
  | some body => cases body <;> rfl

/-- C3.  The CinematicCognitiveUI history buffer never exceeds 7 entries from
the initial state; every tick whose fetch and JSON decode succeed prepends
the received body while keeping the 6 most recent previous entries; failed
fetches, non-JSON bodies and Enable Voice clicks leave the history
untouched; and when the buffer is already at 7 entries a prepend evicts
exactly the oldest entry. -/
theorem C3_bounded_history :
    (∀ evs : List Cinematic.Event, (Cinematic.run evs).history.length ≤ 7)
    ∧ (∀ (s : Cinematic.State) (k : Bool) (b : Body),
        (Cinematic.tick s (.httpResponse k (some b))).history
          = b :: s.history.take 6)
    ∧ (∀ s : Cinematic.State, (Cinematic.tick s .netError).history = s.history)
    ∧ (∀ (s : Cinematic.State) (k : Bool),
        (Cinematic.tick s (.httpResponse k none)).history = s.history)
    ∧ (∀ s : Cinematic.State,
        (Cinematic.enableVoiceClick s).history = s.history)
    ∧ (∀ (s : Cinematic.State) (k : Bool) (b : Body), s.history.length = 7 →
        (Cinematic.tick s (.httpResponse k (some b))).history.length = 7
        ∧ (Cinematic.tick s (.httpResponse k (some b))).history
            = b :: s.history.dropLast) := by
  refine ⟨?_, cinematic_tick_history_prepend, fun s => rfl, fun s k => rfl,
    fun s => rfl, ?_⟩
  · intro evs
    exact cinematic_runFrom_history_le evs Cinematic.init (by simp [Cinematic.init])
  · intro s k b hlen
    rw [cinematic_tick_history_prepend]
    constructor
    · simp [List.length_take, hlen]
    · rw [List.dropLast_eq_take, hlen]

/-- C3, witness for the eviction conjunct: a buffer already holding 7 entries
stays at 7 entries after a successful tick and loses exactly its oldest
entry. -/
theorem C3_bounded_history_witness :
    (Cinematic.tick ⟨none, true, "", false, sevenBodies, []⟩
        (.httpResponse true (some Body.noPipeline))).history.length = 7
    ∧ (Cinematic.tick ⟨none, true, "", false, sevenBodies, []⟩
        (.httpResponse true (some Body.noPipeline))).history
      = Body.noPipeline :: sevenBodies.dropLast :=
  C3_bounded_history.2.2.2.2.2 ⟨none, true, "", false, sevenBodies, []⟩ true
    Body.noPipeline (by decide)

/-- C4.  In every reachable trace of each of the three components, every
speechSynthesis.speak call is immediately preceded by a
speechSynthesis.cancel call, so a narration always cancels any in-flight
utterance before submitting the new one. -/
theorem C4_cancel_precedes_speak :
    (∀ evs : List LiveCamera.Event,
      speakPreceded (LiveCamera.run evs).events = true)
    ∧ (∀ evs : List Cinematic.Event,
      speakPreceded (Cinematic.run evs).events = true)
    ∧ (∀ evs : List CogSystem.Event,
      speakPreceded (CogSystem.run evs).events = true) :=
  ⟨fun evs => liveCamera_runFrom_preceded evs LiveCamera.init rfl,
   fun evs => cinematic_runFrom_preceded evs Cinematic.init rfl,
   fun evs => cogSystem_runFrom_preceded evs CogSystem.init rfl⟩

/-- C5.  With the voice flag false (its default), each narration function is
a no-op performing no speech-engine call at all, for every text and tone;
consequently a run consisting of arbitrarily many poll ticks without an
Enable Voice click performs zero speech-synthesis calls, in all three
components. -/
theorem C5_disabled_is_noop :
    (∀ (evs : List SpeechCall) (t : String),
      LiveCamera.speak false evs t = evs)
    ∧ (∀ (evs : List SpeechCall) (t : String),
      Cinematic.speak false evs t = evs)
    ∧ (∀ (evs : List SpeechCall) (t tone : String),
      CogSystem.speakWithTone false evs t tone = evs)
    ∧ (∀ rs : List FetchResult,
      (LiveCamera.runFrom LiveCamera.init (rs.map LiveCamera.Event.tick)).events = [])
    ∧ (∀ rs : List FetchResult,
      (Cinematic.runFrom Cinematic.init (rs.map Cinematic.Event.tick)).events = [])
    ∧ (∀ rs : List FetchResult,
      (CogSystem.runFrom CogSystem.init (rs.map CogSystem.Event.tick)).events = []) :=
  ⟨fun _ _ => rfl, fun _ _ => rfl, fun _ _ _ => rfl,
   fun rs => (liveCamera_ticks_disabled rs LiveCamera.init rfl).2,
   fun rs => (cinematic_ticks_disabled rs Cinematic.init rfl).2,
   fun rs => (cogSystem_ticks_disabled rs CogSystem.init rfl).2⟩

/-- C6, counterexample.  The LiveCognitiveCamera effect cleanup does not
cancel an in-progress utterance: it only clears the polling interval. -/
theorem C6_counterexample :
    (CleanupAction.cancelSpeech ∈ LiveCamera.cleanup) = False :=
  eq_false (by decide)

/-- C6, amended.  Only the CognitiveAISystem effect cleanup cancels any
in-progress utterance in addition to clearing the polling timer; the
LiveCognitiveCamera and CinematicCognitiveUI cleanups clear the timer only
and leave an in-progress utterance playing. -/
theorem C6_amended :
    LiveCamera.cleanup = [CleanupAction.clearTimer]
    ∧ Cinematic.cleanup = [CleanupAction.clearTimer]
    ∧ CogSystem.cleanup = [CleanupAction.clearTimer, CleanupAction.cancelSpeech]
    ∧ CleanupAction.clearTimer ∈ LiveCamera.cleanup
    ∧ CleanupAction.clearTimer ∈ Cinematic.cleanup
    ∧ CleanupAction.clearTimer ∈ CogSystem.cleanup
    ∧ CleanupAction.cancelSpeech ∈ CogSystem.cleanup
    ∧ CleanupAction.cancelSpeech ∉ Cinematic.cleanup := by
  refine ⟨rfl, rfl, rfl, ?_, ?_, ?_, ?_, ?_⟩ <;> decide

/-- C7.  Every tick whose fetch and JSON decode succeed replaces the
displayed current Thought wholesale with the decoded response value,
independently of the previously displayed value, in all three components;
no field-wise merging occurs. -/
theorem C7_wholesale_replacement :
    (∀ (s : LiveCamera.State) (k : Bool) (b : Body),
      (LiveCamera.tick s (.httpResponse k (some b))).thought = some b)
    ∧ (∀ (s : Cinematic.State) (k : Bool) (b : Body),
      (Cinematic.tick s (.httpResponse k (some b))).thought = some b)
    ∧ (∀ (s : CogSystem.State) (k : Bool) (b : Body),
      (CogSystem.tick s (.httpResponse k (some b))).thought = some b) := by
  refine ⟨?_, ?_, ?_⟩
  · intro s k b
    cases b with
    | noPipeline => rfl
    | wellFormed t =>
      simp only [LiveCamera.tick]
      split <;> rfl
  · intro s k b
    cases b with
    | noPipeline => rfl
    | wellFormed t =>
      simp only [Cinematic.tick]
      split <;> rfl
  · intro s k b
    cases b with
    | noPipeline => rfl
    | wellFormed t =>
      simp only [CogSystem.tick]
      split <;> rfl

/-- C8, counterexample.  The claim says a successful poll whose summary
differs from the last spoken text updates the last-spoken text even when
narration is disabled; but the guard also requires a truthy summary, so
with last-spoken text "A" an incoming empty summary differs from it yet
leaves lastSpoken at "A". -/
theorem C8_counterexample :
    (LiveCamera.tick ⟨none, false, "A", []⟩
        (.httpResponse true (some (.wellFormed (thoughtWithSummary ""))))).lastSpoken
      = "A"
    ∧ (thoughtWithSummary "").pipeline.interpretation.summary ≠ "A" := by
  refine ⟨by decide, by decide⟩

/-- C8, amended.  In LiveCognitiveCamera, a successful poll whose nonempty
summary differs from the last spoken text updates lastSpoken even while the
voice is disabled (the speak call no-ops, so the trace is unchanged); after
the Enable Voice click, polling the same summary again narrates nothing,
because the summary now equals lastSpoken. -/
theorem C8_lastSpoken_updated_while_disabled (th : Option Body) (ls : String)
    (evs : List SpeechCall) (t : Thought)
    (h1 : t.pipeline.interpretation.summary ≠ "")
    (h2 : t.pipeline.interpretation.summary ≠ ls) :
    (LiveCamera.tick ⟨th, false, ls, evs⟩
        (.httpResponse true (some (.wellFormed t)))).lastSpoken
      = t.pipeline.interpretation.summary
    ∧ (LiveCamera.tick ⟨th, false, ls, evs⟩
        (.httpResponse true (some (.wellFormed t)))).events = evs
    ∧ (LiveCamera.tick
        (LiveCamera.enableVoiceClick (LiveCamera.tick ⟨th, false, ls, evs⟩
          (.httpResponse true (some (.wellFormed t)))))
        (.httpResponse true (some (.wellFormed t)))).events = evs
    ∧ (LiveCamera.tick
        (LiveCamera.enableVoiceClick (LiveCamera.tick ⟨th, false, ls, evs⟩
          (.httpResponse true (some (.wellFormed t)))))
        (.httpResponse true (some (.wellFormed t)))).lastSpoken
      = t.pipeline.interpretation.summary := by
  have hstep : LiveCamera.tick ⟨th, false, ls, evs⟩
      (.httpResponse true (some (.wellFormed t)))
      = ⟨some (.wellFormed t), false, t.pipeline.interpretation.summary, evs⟩ := by
    simp only [LiveCamera.tick]
    rw [if_pos ⟨h1, h2⟩]
    rfl
  have hclick : LiveCamera.enableVoiceClick
      ⟨some (.wellFormed t), false, t.pipeline.interpretation.summary, evs⟩
      = ⟨some (.wellFormed t), true, t.pipeline.interpretation.summary, evs⟩ := rfl
  have hstep2 : LiveCamera.tick
      ⟨some (.wellFormed t), true, t.pipeline.interpretation.summary, evs⟩
      (.httpResponse true (some (.wellFormed t)))
      = ⟨some (.wellFormed t), true, t.pipeline.interpretation.summary, evs⟩ := by
    simp only [LiveCamera.tick]
    rw [if_neg]
    intro hc
    exact hc.2 rfl
  rw [hstep, hclick, hstep2]
  exact ⟨rfl, rfl, rfl, rfl⟩

/-- C8, witness at the summary "A" from the initial last-spoken text. -/
theorem C8_lastSpoken_updated_while_disabled_witness :
    (LiveCamera.tick ⟨none, false, "", []⟩
        (.httpResponse true (some (.wellFormed (thoughtWithSummary "A"))))).lastSpoken
      = (thoughtWithSummary "A").pipeline.interpretation.summary
    ∧ (LiveCamera.tick ⟨none, false, "", []⟩
        (.httpResponse true (some (.wellFormed (thoughtWithSummary "A"))))).events = []
    ∧ (LiveCamera.tick
        (LiveCamera.enableVoiceClick (LiveCamera.tick ⟨none, false, "", []⟩
          (.httpResponse true (some (.wellFormed (thoughtWithSummary "A"))))))
        (.httpResponse true (some (.wellFormed (thoughtWithSummary "A"))))).events = []
    ∧ (LiveCamera.tick
        (LiveCamera.enableVoiceClick (LiveCamera.tick ⟨none, false, "", []⟩
          (.httpResponse true (some (.wellFormed (thoughtWithSummary "A"))))))
        (.httpResponse true (some (.wellFormed (thoughtWithSummary "A"))))).lastSpoken
      = (thoughtWithSummary "A").pipeline.interpretation.summary :=
  C8_lastSpoken_updated_while_disabled none "" [] (thoughtWithSummary "A")
    (by decide) (by decide)

/-- C9, counterexample.  There is no set of six phrases such that
humanizeThought always returns a member and every member is attained: the
attainable results are contained in the five-element phrase set. -/
theorem C9_counterexample :
    (∃ S : Finset String, S.card = 6
      ∧ (∀ t : Thought, Cinematic.humanizeThought t ∈ S)
      ∧ (∀ s ∈ S, ∃ t : Thought, Cinematic.humanizeThought t = s)) = False := by
  apply eq_false
  rintro ⟨S, hcard, -, hatt⟩
  have hsub : S ⊆ fivePhrases := by
    intro s hs
    obtain ⟨t, ht⟩ := hatt s hs
    rw [← ht]
    exact humanizeThought_mem_fivePhrases t
  have hle : S.card ≤ fivePhrases.card := Finset.card_le_card hsub
  have h5 : fivePhrases.card = 5 := by decide
  rw [hcard, h5] at hle
  omega

/-- C9, amended.  humanizeThought always returns one of exactly five fixed
phrases, each of which is attained: for a Thought whose labels include
"person", risk levels "LOW", "MEDIUM" and "HIGH" map to their dedicated
phrases; a "person" Thought with any other risk level falls through to the
laptop phrase when "laptop" is among the labels and otherwise to the
default phrase; the person branch takes precedence over the laptop branch;
without "person", "laptop" selects the laptop phrase and otherwise the
default phrase is returned. -/
theorem C9_amended :
    (∀ t : Thought, Cinematic.humanizeThought t ∈ fivePhrases)
    ∧ (∀ t : Thought,
        (t.pipeline.perception.objects.map DetectedObject.label).contains "person" = true →
        t.pipeline.risk.level = "LOW" →
        Cinematic.humanizeThought t = "I can see someone nearby. Everything looks safe.")
    ∧ (∀ t : Thought,
        (t.pipeline.perception.objects.map DetectedObject.label).contains "person" = true →
        t.pipeline.risk.level = "MEDIUM" →
        Cinematic.humanizeThought t = "Someone is close. Stay aware.")
    ∧ (∀ t : Thought,
        (t.pipeline.perception.objects.map DetectedObject.label).contains "person" = true →
        t.pipeline.risk.level = "HIGH" →
        Cinematic.humanizeThought t = "Warning. Someone is very close.")
    ∧ (∀ t : Thought,
        (t.pipeline.perception.objects.map DetectedObject.label).contains "person" = true →
        t.pipeline.risk.level ≠ "LOW" → t.pipeline.risk.level ≠ "MEDIUM" →
        t.pipeline.risk.level ≠ "HIGH" →
        (t.pipeline.perception.objects.map DetectedObject.label).contains "laptop" = true →
        Cinematic.humanizeThought t = "A laptop is in front of you.")
    ∧ (∀ t : Thought,
        (t.pipeline.perception.objects.map DetectedObject.label).contains "person" = true →
        t.pipeline.risk.level ≠ "LOW" → t.pipeline.risk.level ≠ "MEDIUM" →
        t.pipeline.risk.level ≠ "HIGH" →
        (t.pipeline.perception.objects.map DetectedObject.label).contains "laptop" = false →
        Cinematic.humanizeThought t = "I\x27m observing the surroundings.")
    ∧ (∀ t : Thought,
        (t.pipeline.perception.objects.map DetectedObject.label).contains "person" = false →
        (t.pipeline.perception.objects.map DetectedObject.label).contains "laptop" = true →
        Cinematic.humanizeThought t = "A laptop is in front of you.")
    ∧ (∀ t : Thought,
        (t.pipeline.perception.objects.map DetectedObject.label).contains "person" = false →
        (t.pipeline.perception.objects.map DetectedObject.label).contains "laptop" = false →
        Cinematic.humanizeThought t = "I\x27m observing the surroundings.")
    ∧ (Cinematic.humanizeThought (thoughtWithLabels ["person"] "LOW")
        = "I can see someone nearby. Everything looks safe."
      ∧ Cinematic.humanizeThought (thoughtWithLabels ["person"] "MEDIUM")
        = "Someone is close. Stay aware."
      ∧ Cinematic.humanizeThought (thoughtWithLabels ["person"] "HIGH")
        = "Warning. Someone is very close."
      ∧ Cinematic.humanizeThought (thoughtWithLabels ["laptop"] "SAFE")
        = "A laptop is in front of you."
      ∧ Cinematic.humanizeThought (thoughtWithLabels [] "SAFE")
        = "I\x27m observing the surroundings.") := by
  refine ⟨humanizeThought_mem_fivePhrases, ?_, ?_, ?_, ?_, ?_, ?_, ?_, ?_⟩
  · intro t hp hr
    simp at hp
    simp [Cinematic.humanizeThought, hp, hr]
  · intro t hp hr
    simp at hp
    simp [Cinematic.humanizeThought, hp, hr]
  · intro t hp hr
    simp at hp
    simp [Cinematic.humanizeThought, hp, hr]
  · intro t hp h1 h2 h3 hl
    simp at hp hl
    simp [Cinematic.humanizeThought, hp, h1, h2, h3, hl]
  · intro t hp h1 h2 h3 hl
    simp only [Cinematic.humanizeThought]
    rw [if_pos hp, if_neg h1, if_neg h2, if_neg h3, if_neg (by rw [hl]; decide)]
  · intro t hp hl
    simp only [Cinematic.humanizeThought]
    rw [if_neg (by rw [hp]; decide), if_pos hl]
  · intro t hp hl
    simp only [Cinematic.humanizeThought]
    rw [if_neg (by rw [hp]; decide), if_neg (by rw [hl]; decide)]
  · refine ⟨by decide, by decide, by decide, by decide, by decide⟩

/-- C9, witness: the person branch with an unlisted risk level falls through
to the laptop phrase even when both labels are present, and the MEDIUM risk
level yields its dedicated phrase. -/
theorem C9_amended_witness :
    Cinematic.humanizeThought (thoughtWithLabels ["person", "laptop"] "SAFE")
      = "A laptop is in front of you."
    ∧ Cinematic.humanizeThought (thoughtWithLabels ["person"] "MEDIUM")
      = "Someone is close. Stay aware." :=
  ⟨C9_amended.2.2.2.2.1 (thoughtWithLabels ["person", "laptop"] "SAFE")
      (by decide) (by decide) (by decide) (by decide) (by decide),
   C9_amended.2.2.1 (thoughtWithLabels ["person"] "MEDIUM")
      (by decide) (by decide)⟩

/-- C10.  Clicking Enable Voice invokes the narration function while the
voice flag visible to that call is still false, so the click adds no
speech-engine call at all (the activation phrase is not spoken) although
the flag is set to true for subsequent renders, in all three components. -/
theorem C10_activation_phrase_not_spoken :
    (∀ (th : Option Body) (ls : String) (evs : List SpeechCall),
      (LiveCamera.enableVoiceClick ⟨th, false, ls, evs⟩).events = evs
      ∧ (LiveCamera.enableVoiceClick ⟨th, false, ls, evs⟩).voiceEnabled = true)
    ∧ (∀ (th : Option Body) (ls : String) (evs : List SpeechCall),
      (CogSystem.enableVoiceClick ⟨th, ls, false, evs⟩).events = evs
      ∧ (CogSystem.enableVoiceClick ⟨th, ls, false, evs⟩).voiceEnabled = true)
    ∧ (∀ (th : Option Body) (ld : Bool) (ls : String) (hist : List Body)
        (evs : List SpeechCall),
      (Cinematic.enableVoiceClick ⟨th, ld, ls, false, hist, evs⟩).events = evs
      ∧ (Cinematic.enableVoiceClick ⟨th, ld, ls, false, hist, evs⟩).voiceEnabled = true) :=
  ⟨fun _ _ _ => ⟨rfl, rfl⟩, fun _ _ _ => ⟨rfl, rfl⟩,
   fun _ _ _ _ _ => ⟨rfl, rfl⟩⟩
